import Mathlib

/-!
# Verification of the unistrap image composer

Shallow embedding of `src/unistrap.c` (an MBR kernel imager).  The program
concatenates a packed 36-byte header, a bootstrap payload, a kernel payload
and `0xEE` padding into one output file whose length is a whole number of
512-byte sectors.

Machine integers are modelled as `Nat` with explicit reductions:
`size_t` arithmetic is taken modulo `2^64`, assignments into the `uint16_t`
header fields modulo `2^16`.  The C macro
`ALIGN_UP(v, a) = ((v + a - 1) & ~(a - 1))`, evaluated on 64-bit unsigned
operands, is the bitwise and with the mask `2^64 - a`.
-/

namespace Unistrap

def W64 : Nat := 2 ^ 64
def W16 : Nat := 2 ^ 16

/-- `SECTOR_SIZE` (0x200) from `unistrap.c`. -/
def SECTOR_SIZE : Nat := 0x200

/-- `MBR_END_OFFSET` from `unistrap.c`. -/
def MBR_END_OFFSET : Nat := SECTOR_SIZE

/-- `sizeof(struct image_header)`: the struct is `__attribute__((packed))`
with fields u16, u16, 64-bit off_t, 64-bit size_t, 64-bit off_t, 64-bit
size_t, hence 2 + 2 + 8 + 8 + 8 + 8 = 36 bytes. -/
def HDR_SIZE : Nat := 36

/-- `struct image_header` from `unistrap.c`.  Field values are the numbers
stored in the C struct (each already reduced to its field width when it was
assigned). -/
structure image_header where
  hdr_size : Nat
  sector_count : Nat
  bootstrap_off : Nat
  bootstrap_size : Nat
  kernel_off : Nat
  kernel_size : Nat
deriving DecidableEq, Repr

/-- The C macro `ALIGN_UP(value, align) = ((value + (align-1)) & ~((align-1)))`
on 64-bit unsigned arithmetic: the addition wraps modulo `2^64` and
`~(align-1)` is the mask `2^64 - align`. -/
def ALIGN_UP (value align : Nat) : Nat :=
  ((value + (align - 1)) % W64) &&& (W64 - align)

/-- The header-field computation of `generate` (unistrap.c lines 125-142),
translated statement by statement.  `hdr0` models the uninitialized stack
object `struct image_header hdr`: fields the code never assigns keep their
initial (garbage) contents.

Note the source assigns the bootstrap fields twice: lines 130-131 store the
bootstrap size/offset, and lines 136-137 (commented "Initialize the kernel
part of header") overwrite those same two fields with the kernel values;
`kernel_off` and `kernel_size` are never written.  The byte total is stored
into the `uint16_t sector_count` field before it is aligned, so each
assignment reduces modulo `2^16`. -/
def makeHeader (hdr0 : image_header) (bs_sz k_sz : Nat) : image_header :=
  let hdr1 := { hdr0 with hdr_size := HDR_SIZE % W16 }
  let hdr2 := { hdr1 with bootstrap_size := bs_sz, bootstrap_off := MBR_END_OFFSET }
  let hdr3 := { hdr2 with bootstrap_size := k_sz, bootstrap_off := MBR_END_OFFSET + bs_sz }
  let sc1 := (hdr3.hdr_size + k_sz + bs_sz) % W16
  let sc2 := ALIGN_UP sc1 SECTOR_SIZE % W16
  let sc3 := sc2 / SECTOR_SIZE
  { hdr3 with sector_count := sc3 }

/-- `total_sz = k_sz + bs_sz + sizeof(hdr)` (line 159), `size_t` arithmetic. -/
def total_sz (bs_sz k_sz : Nat) : Nat := (k_sz + bs_sz + HDR_SIZE) % W64

/-- `align_sz = ALIGN_UP(total_sz, SECTOR_SIZE)` (line 160). -/
def align_sz (bs_sz k_sz : Nat) : Nat := ALIGN_UP (total_sz bs_sz k_sz) SECTOR_SIZE

/-- `pad_sz = align_sz - total_sz` (line 161), unsigned 64-bit subtraction. -/
def pad_sz (bs_sz k_sz : Nat) : Nat :=
  (align_sz bs_sz k_sz + W64 - total_sz bs_sz k_sz) % W64

/-! ## Arithmetic facts about the 64-bit alignment mask -/

/-- Anding a 64-bit value with `~511` (i.e. `2^64 - 512`) clears its low
nine bits. -/
theorem land_mask512 (x : Nat) (hx : x < W64) :
    x &&& (W64 - 512) = 512 * (x / 512) := by
  have hmask : W64 - 512 = (2 ^ 55 - 1) <<< 9 := by
    rw [Nat.shiftLeft_eq]
    norm_num [W64]
  have hrhs : 512 * (x / 512) = (x >>> 9) <<< 9 := by
    rw [Nat.shiftRight_eq_div_pow, Nat.shiftLeft_eq]
    norm_num [Nat.mul_comm]
  rw [hmask, hrhs]
  apply Nat.eq_of_testBit_eq
  intro i
  rw [Nat.testBit_land, Nat.testBit_shiftLeft, Nat.testBit_shiftLeft,
    Nat.testBit_shiftRight, Nat.testBit_two_pow_sub_one]
  by_cases h9 : 9 ≤ i
  · have h9i : 9 + (i - 9) = i := by omega
    by_cases h64 : i < 64
    · have h55 : i - 9 < 55 := by omega
      simp [h9, h55, h9i]
    · have hxi : x.testBit i = false := by
        apply Nat.testBit_eq_false_of_lt
        calc x < W64 := hx
        _ ≤ 2 ^ i := by
            apply Nat.pow_le_pow_right (by norm_num)
            omega
      simp [hxi, h9i, h9]
  · simp [h9]

/-- Closed form of `ALIGN_UP _ 512` when the wrapped sum is taken. -/
theorem ALIGN_UP_eq (v : Nat) :
    ALIGN_UP v 512 = 512 * (((v + 511) % W64) / 512) := by
  unfold ALIGN_UP
  exact land_mask512 _ (Nat.mod_lt _ (by norm_num [W64]))

/-- For totals that stay at least 512 below the 64-bit wrap point the
padding arithmetic is exact: `align_sz` rounds up to the next multiple of
512 and `pad_sz` is the plain difference. -/
theorem align_pad_exact (b k : Nat) (h : total_sz b k ≤ W64 - 512) :
    align_sz b k = 512 * ((total_sz b k + 511) / 512) ∧
      pad_sz b k = 512 * ((total_sz b k + 511) / 512) - total_sz b k := by
  have hW : W64 = 18446744073709551616 := by norm_num [W64]
  have hlt : total_sz b k + 511 < W64 := by omega
  have ha : align_sz b k = 512 * ((total_sz b k + 511) / 512) := by
    simp only [align_sz, SECTOR_SIZE]
    rw [show (0x200 : Nat) = 512 from rfl, ALIGN_UP_eq, Nat.mod_eq_of_lt hlt]
  refine ⟨ha, ?_⟩
  have hge : total_sz b k ≤ 512 * ((total_sz b k + 511) / 512) := by
    have h1 : total_sz b k + 511 < 512 * ((total_sz b k + 511) / 512 + 1) :=
      Nat.lt_mul_div_succ _ (by norm_num)
    omega
  have hle : 512 * ((total_sz b k + 511) / 512) ≤ total_sz b k + 511 :=
    Nat.mul_div_le _ _
  unfold pad_sz
  rw [ha]
  have heq : 512 * ((total_sz b k + 511) / 512) + W64 - total_sz b k =
      W64 + (512 * ((total_sz b k + 511) / 512) - total_sz b k) := by omega
  rw [heq, Nat.add_mod_left, Nat.mod_eq_of_lt (by omega)]

/-- In the overflow corner (`total_sz` within 511 of `2^64`) the aligned
value wraps to 0 and the unsigned subtraction still yields a pad below 512. -/
theorem align_pad_wrap (b k : Nat) (h : W64 - 512 < total_sz b k) :
    align_sz b k = 0 ∧ pad_sz b k = W64 - total_sz b k := by
  have hW : W64 = 18446744073709551616 := by norm_num [W64]
  have htlt : total_sz b k < W64 := Nat.mod_lt _ (by omega)
  have ha : align_sz b k = 0 := by
    simp only [align_sz, SECTOR_SIZE]
    rw [show (0x200 : Nat) = 512 from rfl, ALIGN_UP_eq]
    have h1 : (total_sz b k + 511) % W64 = total_sz b k + 511 - W64 := by
      rw [Nat.mod_eq_sub_mod (by omega), Nat.mod_eq_of_lt (by omega)]
    rw [h1]
    have h2 : (total_sz b k + 511 - W64) / 512 = 0 := by
      apply Nat.div_eq_of_lt
      omega
    rw [h2, Nat.mul_zero]
  refine ⟨ha, ?_⟩
  unfold pad_sz
  rw [ha, Nat.zero_add, Nat.mod_eq_of_lt (by omega)]

/-- The pad byte count is always below the 512-byte buffer size. -/
theorem pad_sz_lt (b k : Nat) : pad_sz b k < 512 := by
  by_cases h : total_sz b k ≤ W64 - 512
  · obtain ⟨-, hp⟩ := align_pad_exact b k h
    have hle : 512 * ((total_sz b k + 511) / 512) ≤ total_sz b k + 511 :=
      Nat.mul_div_le _ _
    omega
  · obtain ⟨-, hp⟩ := align_pad_wrap b k (by omega)
    have hW : W64 = 18446744073709551616 := by norm_num [W64]
    have htlt : total_sz b k < W64 := Nat.mod_lt _ (by omega)
    omega

/-! ## Serialization and the produced output bytes

`write(out_fd, &hdr, sizeof(hdr))` emits the 36 bytes of the packed struct:
each field little-endian, no inter-field padding (x86-64 / the spec's §6
encoding). -/

/-- Little-endian bytes of a 16-bit field. -/
def u16le (v : Nat) : List Nat := [v % 256, v / 256 % 256]

/-- Little-endian bytes of a 64-bit field. -/
def u64le (v : Nat) : List Nat :=
  (List.range 8).map fun i => v / 256 ^ i % 256

/-- The 36 bytes `write` takes from the packed `struct image_header`. -/
def headerBytes (h : image_header) : List Nat :=
  u16le h.hdr_size ++ u16le h.sector_count ++ u64le h.bootstrap_off ++
    u64le h.bootstrap_size ++ u64le h.kernel_off ++ u64le h.kernel_size

theorem headerBytes_length (h : image_header) : (headerBytes h).length = 36 := by
  simp [headerBytes, u16le, u64le]

/-- The byte stream `generate` sends to the output file on the all-success
path (lines 144-166): header struct, then the mmap-copied bootstrap bytes,
then the kernel bytes, then `pad_sz` bytes of `0xEE` (only when
`pad_sz > 0`; appending zero copies of the byte is the same list).
`hdr0` is the uninitialized stack header, `bs`/`ker` the input files. -/
def outputBytes (hdr0 : image_header) (bs ker : List Nat) : List Nat :=
  headerBytes (makeHeader hdr0 bs.length ker.length) ++ bs ++ ker ++
    List.replicate (pad_sz bs.length ker.length) 0xEE

/-- Length of the produced file. -/
theorem outputBytes_length (hdr0 : image_header) (bs ker : List Nat) :
    (outputBytes hdr0 bs ker).length =
      36 + bs.length + ker.length + pad_sz bs.length ker.length := by
  simp [outputBytes, headerBytes_length]
  omega

/-- A concrete stand-in for the garbage the uninitialized header holds. -/
def hdr0c : image_header :=
  { hdr_size := 0, sector_count := 0, bootstrap_off := 0,
    bootstrap_size := 0, kernel_off := 0, kernel_size := 0 }

/-! ## Further helper lemmas -/

theorem makeHeader_sector_count (hdr0 : image_header) (b k : Nat) :
    (makeHeader hdr0 b k).sector_count =
      ALIGN_UP ((HDR_SIZE % W16 + k + b) % W16) SECTOR_SIZE % W16 / SECTOR_SIZE := by
  simp [makeHeader]

/-- Below the `uint16_t` truncation threshold the stored sector count is the
correct rounded-up sector total. -/
theorem sector_count_small (hdr0 : image_header) (b k : Nat)
    (h : 36 + b + k ≤ 65024) :
    (makeHeader hdr0 b k).sector_count = (36 + b + k + 511) / 512 := by
  rw [makeHeader_sector_count]
  have hW16 : W16 = 65536 := by norm_num [W16]
  have hW64 : W64 = 18446744073709551616 := by norm_num [W64]
  have hcomm : 36 + k + b = 36 + b + k := by omega
  have h1 : HDR_SIZE % W16 = 36 := by norm_num [HDR_SIZE, W16]
  rw [h1]
  have h2 : (36 + k + b) % W16 = 36 + b + k := by
    rw [Nat.mod_eq_of_lt (by omega)]
    omega
  rw [h2]
  rw [show SECTOR_SIZE = 512 from rfl, ALIGN_UP_eq]
  have h3 : (36 + b + k + 511) % W64 = 36 + b + k + 511 := Nat.mod_eq_of_lt (by omega)
  rw [h3]
  have hqle : (36 + b + k + 511) / 512 ≤ 127 := by
    have hle : (36 + b + k + 511) / 512 ≤ 65535 / 512 :=
      Nat.div_le_div_right (by omega)
    omega
  have h4 : 512 * ((36 + b + k + 511) / 512) % W16 =
      512 * ((36 + b + k + 511) / 512) :=
    Nat.mod_eq_of_lt (by omega)
  rw [h4, Nat.mul_div_cancel_left _ (by norm_num)]

/-- When the true byte total fits in 64 bits, `total_sz` is exact. -/
theorem total_sz_eq (b k : Nat) (h : 36 + b + k < W64) :
    total_sz b k = 36 + b + k := by
  unfold total_sz
  rw [show HDR_SIZE = 36 from rfl, Nat.mod_eq_of_lt (by omega)]
  omega

/-- A total that is an exact multiple of 512 needs no padding. -/
theorem pad_eq_zero_of_dvd (b k : Nat) (h : 512 ∣ 36 + b + k) :
    pad_sz b k = 0 := by
  have hW : W64 = 512 * 36028797018963968 := by norm_num [W64]
  have hdvd : 512 ∣ total_sz b k := by
    unfold total_sz
    rw [show HDR_SIZE = 36 from rfl, Nat.dvd_mod_iff ⟨36028797018963968, hW⟩]
    omega
  have htlt : total_sz b k < W64 := Nat.mod_lt _ (by omega)
  have hc : total_sz b k ≤ W64 - 512 := by
    obtain ⟨t, ht⟩ := hdvd
    omega
  obtain ⟨-, hp⟩ := align_pad_exact b k hc
  obtain ⟨t, ht⟩ := hdvd
  rw [hp, ht]
  have hdiv : (512 * t + 511) / 512 = t := by
    rw [show 512 * t + 511 = 511 + 512 * t from by omega,
      Nat.add_mul_div_left _ _ (by norm_num)]
    omega
  rw [hdiv]
  omega

/-- The padded total is the aligned total: a multiple of 512, and for
sub-wrap totals exactly `512 * ceil(total / 512)`. -/
theorem padded_total (b k : Nat) (h : 36 + b + k < W64) :
    512 ∣ (36 + b + k + pad_sz b k) ∧
      36 + b + k + pad_sz b k = ((36 + b + k + 511) / 512) * 512 ∨
    W64 - 512 < 36 + b + k ∧ 36 + b + k + pad_sz b k = W64 := by
  have htot := total_sz_eq b k h
  by_cases hc : total_sz b k ≤ W64 - 512
  · left
    obtain ⟨-, hp⟩ := align_pad_exact b k hc
    have hge : total_sz b k ≤ 512 * ((total_sz b k + 511) / 512) := by
      have h1 : total_sz b k + 511 < 512 * ((total_sz b k + 511) / 512 + 1) :=
        Nat.lt_mul_div_succ _ (by norm_num)
      omega
    rw [htot] at hp hge
    constructor
    · exact ⟨(36 + b + k + 511) / 512, by omega⟩
    · omega
  · right
    obtain ⟨-, hp⟩ := align_pad_wrap b k (by omega)
    have htlt : total_sz b k < W64 := Nat.mod_lt _ (by norm_num [W64])
    rw [htot] at hp htlt hc
    exact ⟨by omega, by omega⟩

/-! ## Claim theorems -/

/-- C1: the claim says the header's bootstrap and kernel fields are
populated separately and correctly (`bootstrap_off = 512`,
`bootstrap_size = b`, `kernel_off = 512 + b`, `kernel_size = k`).  The code
violates this: at `b = 1`, `k = 2` the second initialization block
overwrites the bootstrap fields with the kernel values
(`bootstrap_size = 2`, `bootstrap_off = 513`) and the kernel fields are
never assigned, keeping whatever garbage the uninitialized stack struct
held. -/
theorem C1_header_fields_bug :
    ∀ hdr0 : image_header,
      (makeHeader hdr0 1 2).bootstrap_size = 2 ∧
      (makeHeader hdr0 1 2).bootstrap_off = 513 ∧
      (makeHeader hdr0 1 2).kernel_off = hdr0.kernel_off ∧
      (makeHeader hdr0 1 2).kernel_size = hdr0.kernel_size ∧
      ¬ ((makeHeader hdr0 1 2).bootstrap_size = 1 ∧
         (makeHeader hdr0 1 2).bootstrap_off = 512) := by
  intro hdr0
  simp [makeHeader, MBR_END_OFFSET, SECTOR_SIZE]

/-- C2: the claim says the stored `sector_count` equals
`ceil((36 + b + k) / 512)` with the byte total never truncated before the
rounding.  The code violates this: the total is first stored into the
16-bit `sector_count` field, so at `b = 65500`, `k = 0` the total 65536
truncates to 0 and the stored sector count is 0, while the claimed value is
`ceil(65536 / 512) = (36 + 65500 + 511) / 512 = 128`. -/
theorem C2_sector_count_truncation :
    (makeHeader hdr0c 65500 0).sector_count = 0 ∧
      (36 + 65500 + 0 + 511) / 512 = 128 ∧
      (makeHeader hdr0c 65500 0).sector_count ≠ (36 + 65500 + 0 + 511) / 512 := by
  refine ⟨by decide, by norm_num, by decide⟩

/-- C3 counterexample: with a 1-byte bootstrap `[0xAA]` and an empty kernel
the output is 512 bytes long, so the bytes at offsets 512..513 are not the
bootstrap content: the claim that the bootstrap payload sits at offset 512
fails on the code, which writes it immediately after the 36-byte header. -/
theorem C3_counterexample :
    ¬ (((outputBytes hdr0c [0xAA] []).drop 512).take 1 = [0xAA]) := by
  have hlen : (outputBytes hdr0c [0xAA] []).length = 512 := by
    rw [outputBytes_length]
    decide
  have hd : (outputBytes hdr0c [0xAA] []).drop 512 = [] :=
    List.drop_eq_nil_of_le (by rw [hlen])
  rw [hd]
  decide

/-- C3 (amended): the payloads are written contiguously after the header:
the bytes of the output at offsets `36 .. 36 + b` are exactly the bootstrap
source's content, and the bytes at offsets `36 + b .. 36 + b + k` are
exactly the kernel source's content. -/
theorem C3_payload_layout (hdr0 : image_header) (bs ker : List Nat) :
    ((outputBytes hdr0 bs ker).drop 36).take bs.length = bs ∧
      ((outputBytes hdr0 bs ker).drop (36 + bs.length)).take ker.length = ker := by
  have hsplit : outputBytes hdr0 bs ker =
      (headerBytes (makeHeader hdr0 bs.length ker.length) ++ bs) ++
        (ker ++ List.replicate (pad_sz bs.length ker.length) 0xEE) := by
    simp [outputBytes]
  constructor
  · have h1 : (outputBytes hdr0 bs ker).drop 36 =
        bs ++ (ker ++ List.replicate (pad_sz bs.length ker.length) 0xEE) := by
      rw [hsplit, List.append_assoc, List.drop_left' (headerBytes_length _)]
    rw [h1, List.take_left]
  · have h2 : (outputBytes hdr0 bs ker).drop (36 + bs.length) =
        ker ++ List.replicate (pad_sz bs.length ker.length) 0xEE := by
      rw [hsplit]
      apply List.drop_left'
      rw [List.length_append, headerBytes_length]
    rw [h2, List.take_left]

/-- C4 counterexample: at bootstrap size 65964 and kernel size 0 the output
file is 66048 bytes long, but the header's (truncated) `sector_count` is 1,
so the claimed equality `output length = sector_count * 512` fails. -/
theorem C4_counterexample :
    ¬ ((outputBytes hdr0c (List.replicate 65964 0) []).length =
        (makeHeader hdr0c (List.replicate 65964 0).length
          (List.length (α := Nat) [])).sector_count * 512) := by
  rw [outputBytes_length, List.length_replicate, List.length_nil]
  decide

/-- C4 (amended): for every pair of inputs whose raw total `36 + b + k`
fits in 64 bits, the output length is an exact multiple of 512 and exceeds
`36 + b + k` by `pad_sz ∈ [0, 511]`; the length equals the stored
`sector_count * 512` whenever `36 + b + k ≤ 65024`, i.e. below the
threshold at which the 16-bit `sector_count` field truncates. -/
theorem C4_length_invariant (hdr0 : image_header) (bs ker : List Nat)
    (h : 36 + bs.length + ker.length < W64) :
    512 ∣ (outputBytes hdr0 bs ker).length ∧
      (outputBytes hdr0 bs ker).length =
        36 + bs.length + ker.length + pad_sz bs.length ker.length ∧
      pad_sz bs.length ker.length ≤ 511 ∧
      (36 + bs.length + ker.length ≤ 65024 →
        (outputBytes hdr0 bs ker).length =
          (makeHeader hdr0 bs.length ker.length).sector_count * 512) := by
  have hlen := outputBytes_length hdr0 bs ker
  have hpt := padded_total bs.length ker.length h
  refine ⟨?_, hlen, ?_, ?_⟩
  · rw [hlen]
    rcases hpt with ⟨hd, -⟩ | ⟨-, he⟩
    · exact hd
    · rw [he]
      exact ⟨36028797018963968, by norm_num [W64]⟩
  · have := pad_sz_lt bs.length ker.length
    omega
  · intro hsmall
    rw [hlen, sector_count_small hdr0 bs.length ker.length hsmall]
    rcases hpt with ⟨-, he⟩ | ⟨hgt, -⟩
    · exact he
    · have hW : W64 = 18446744073709551616 := by norm_num [W64]
      omega

/-- C4 witness: the spec's own concrete scenario, bootstrap 440 bytes and
kernel 1000 bytes. -/
theorem C4_length_invariant_witness :
    512 ∣ (outputBytes hdr0c (List.replicate 440 7) (List.replicate 1000 9)).length ∧
      (outputBytes hdr0c (List.replicate 440 7) (List.replicate 1000 9)).length =
        36 + (List.replicate 440 7).length + (List.replicate (α := Nat) 1000 9).length +
          pad_sz (List.replicate (α := Nat) 440 7).length
            (List.replicate (α := Nat) 1000 9).length ∧
      pad_sz (List.replicate (α := Nat) 440 7).length
          (List.replicate (α := Nat) 1000 9).length ≤ 511 ∧
      (36 + (List.replicate (α := Nat) 440 7).length +
          (List.replicate (α := Nat) 1000 9).length ≤ 65024 →
        (outputBytes hdr0c (List.replicate 440 7) (List.replicate 1000 9)).length =
          (makeHeader hdr0c (List.replicate (α := Nat) 440 7).length
              (List.replicate (α := Nat) 1000 9).length).sector_count * 512) :=
  C4_length_invariant hdr0c (List.replicate 440 7) (List.replicate 1000 9)
    (by norm_num [W64])

/-- C5: the output file is exactly header, bootstrap, kernel followed by a
final contiguous run of `pad_sz` bytes each equal to 0xEE, and when
`36 + b + k` is already a multiple of 512 the pad is empty: no pad byte is
appended. -/
theorem C5_padding (hdr0 : image_header) (bs ker : List Nat) :
    outputBytes hdr0 bs ker =
      (headerBytes (makeHeader hdr0 bs.length ker.length) ++ bs ++ ker) ++
        List.replicate (pad_sz bs.length ker.length) 0xEE ∧
      (512 ∣ 36 + bs.length + ker.length → pad_sz bs.length ker.length = 0) := by
  constructor
  · simp [outputBytes]
  · intro hdvd
    exact pad_eq_zero_of_dvd bs.length ker.length hdvd

/-- C5 witness: a 476-byte bootstrap and empty kernel give a raw total of
exactly one sector, and indeed no pad byte is appended. -/
theorem C5_padding_witness :
    outputBytes hdr0c (List.replicate 476 1) [] =
      (headerBytes (makeHeader hdr0c (List.replicate (α := Nat) 476 1).length
          (List.length (α := Nat) [])) ++ List.replicate 476 1 ++ []) ++
        List.replicate (pad_sz (List.replicate (α := Nat) 476 1).length
          (List.length (α := Nat) [])) 0xEE ∧
      (512 ∣ 36 + (List.replicate (α := Nat) 476 1).length + (List.length (α := Nat) []) →
        pad_sz (List.replicate (α := Nat) 476 1).length (List.length (α := Nat) []) = 0) :=
  C5_padding hdr0c (List.replicate 476 1) []

/-- C10: for every pair of input sizes the pad count computed at lines
159-161 (aligned total minus raw total, in 64-bit unsigned arithmetic) is
strictly less than 512, so `memset(pad, 0xEE, pad_sz)` and
`write(out_fd, pad, pad_sz)` stay within the 512-byte stack buffer
`char pad[512]`. -/
theorem C10_pad_buffer_safe : ∀ b k : Nat, pad_sz b k < 512 := by
  intro b k
  exact pad_sz_lt b k

/-! ## Event trace of the success path (single pass, write order)

`generate` is straight-line code; the order of its source measurements,
source reads (each an `mmap` of the whole input) and sink writes on the
all-success path is recorded as a trace. -/

/-- The two input sources. -/
inductive Src
  | bootstrap
  | kern
deriving DecidableEq, Repr

/-- Observable I/O events of the success path. -/
inductive Ev
  | measure (s : Src)
  | readSrc (s : Src) (data : List Nat)
  | writeSink (data : List Nat)
deriving DecidableEq, Repr

/-- The I/O trace of a fully successful `generate` run (lines 125-166):
measure bootstrap (lseek to end and back), measure kernel, write the header
struct, mmap-read and write the bootstrap, mmap-read and write the kernel,
and write the pad only when `pad_sz > 0`. -/
def generateTrace (hdr0 : image_header) (bs ker : List Nat) : List Ev :=
  let h := makeHeader hdr0 bs.length ker.length
  [Ev.measure Src.bootstrap, Ev.measure Src.kern,
   Ev.writeSink (headerBytes h),
   Ev.readSrc Src.bootstrap bs, Ev.writeSink bs,
   Ev.readSrc Src.kern ker, Ev.writeSink ker] ++
    (if 0 < pad_sz bs.length ker.length then
      [Ev.writeSink (List.replicate (pad_sz bs.length ker.length) 0xEE)]
    else [])

/-- The sequence of byte blocks sent to the sink, in order. -/
def writesOf (tr : List Ev) : List (List Nat) :=
  tr.filterMap fun e =>
    match e with
    | Ev.writeSink d => some d
    | _ => none

def isMeasure (e : Ev) : Bool :=
  match e with
  | Ev.measure _ => true
  | _ => false

def isReadOf (s : Src) (e : Ev) : Bool :=
  match e with
  | Ev.readSrc t _ => t == s
  | _ => false

/-- C6: on the successful path the sink receives exactly one serialized
header block, then the bootstrap bytes, then the kernel bytes, then the
padding (only when nonempty), nothing interleaved; the two measurements
happen first (before any read or write), no re-measurement follows, and
each source is read exactly once. -/
theorem C6_single_pass_order (hdr0 : image_header) (bs ker : List Nat) :
    writesOf (generateTrace hdr0 bs ker) =
      [headerBytes (makeHeader hdr0 bs.length ker.length), bs, ker] ++
        (if 0 < pad_sz bs.length ker.length then
          [List.replicate (pad_sz bs.length ker.length) 0xEE]
        else []) ∧
      (generateTrace hdr0 bs ker).take 2 =
        [Ev.measure Src.bootstrap, Ev.measure Src.kern] ∧
      ((generateTrace hdr0 bs ker).drop 2).countP isMeasure = 0 ∧
      (generateTrace hdr0 bs ker).countP (isReadOf Src.bootstrap) = 1 ∧
      (generateTrace hdr0 bs ker).countP (isReadOf Src.kern) = 1 := by
  by_cases hp : 0 < pad_sz bs.length ker.length <;>
    simp [generateTrace, writesOf, isMeasure, isReadOf, hp]

/-! ## Resource and failure model

`generate` opens two sources and one sink and maps each source once; any
of the three `open` calls and the two `mmap` calls can fail, and each of
the four `write` calls can fail.  The code checks only the opens and the
mmap results; `write` return values are ignored.  A run is recorded as the
list of acquisition / release / write / diagnostic events together with
the `int` return value of `generate`. -/

/-- File descriptors and mappings acquired during a run. -/
inductive Res
  | bsFd
  | kFd
  | outFd
  | bsMap
  | kMap
deriving DecidableEq, Repr

/-- The four write stages. -/
inductive Stage
  | header
  | bootstrapCopy
  | kernelCopy
  | padding
deriving DecidableEq, Repr

/-- Diagnostics the code prints: `perror("open[bs]")`, `perror("open[out]")`
and `perror("mmap")`.  There is no diagnostic for a failed kernel open. -/
inductive Diag
  | openBsDiag
  | openOutDiag
  | mmapDiag
deriving DecidableEq, Repr

inductive REv
  | acq (r : Res)
  | acqFail (r : Res)
  | rel (r : Res)
  | wr (st : Stage) (ok : Bool)
  | report (d : Diag)
deriving DecidableEq, Repr

/-- Which system calls succeed in a given run. -/
structure SysFlags where
  bsOpenOk : Bool
  kOpenOk : Bool
  outOpenOk : Bool
  bsMmapOk : Bool
  kMmapOk : Bool
  hdrWriteOk : Bool
  bsWriteOk : Bool
  kWriteOk : Bool
  padWriteOk : Bool
deriving DecidableEq

/-- `output_append` (lines 71-93): mmap the source; on failure report and
return -1; otherwise write (the result is ignored), munmap, return 0. -/
def output_append_run (m : Res) (mapOk : Bool) (st : Stage) (wrOk : Bool) :
    List REv × Int :=
  if mapOk = false then
    ([REv.acqFail m, REv.report Diag.mmapDiag], -1)
  else
    ([REv.acq m, REv.wr st wrOk, REv.rel m], 0)

/-- The control flow of `generate` (lines 95-178) with the pad write
condition `0 < pad_sz` precomputed into `padOn`.  Each branch lists the
events in source order, including the `close` calls of that exit path. -/
def generate_run_core (padOn : Bool) (fl : SysFlags) : List REv × Int :=
  if fl.bsOpenOk = false then
    ([REv.acqFail Res.bsFd, REv.report Diag.openBsDiag], -1)
  else if fl.kOpenOk = false then
    ([REv.acq Res.bsFd, REv.acqFail Res.kFd, REv.rel Res.bsFd], -1)
  else if fl.outOpenOk = false then
    ([REv.acq Res.bsFd, REv.acq Res.kFd, REv.acqFail Res.outFd,
      REv.report Diag.openOutDiag, REv.rel Res.bsFd, REv.rel Res.kFd], -1)
  else
    let pre := [REv.acq Res.bsFd, REv.acq Res.kFd, REv.acq Res.outFd,
      REv.wr Stage.header fl.hdrWriteOk]
    let r1 := output_append_run Res.bsMap fl.bsMmapOk Stage.bootstrapCopy fl.bsWriteOk
    if r1.2 < 0 then
      (pre ++ r1.1 ++ [REv.rel Res.outFd, REv.rel Res.bsFd, REv.rel Res.kFd], -1)
    else
      let r2 := output_append_run Res.kMap fl.kMmapOk Stage.kernelCopy fl.kWriteOk
      if r2.2 < 0 then
        (pre ++ r1.1 ++ r2.1 ++
          [REv.rel Res.outFd, REv.rel Res.bsFd, REv.rel Res.kFd], -1)
      else
        let padEv := if padOn then [REv.wr Stage.padding fl.padWriteOk] else []
        (pre ++ r1.1 ++ r2.1 ++ padEv ++
          [REv.rel Res.outFd, REv.rel Res.bsFd, REv.rel Res.kFd], 0)

/-- A `generate` run on inputs of sizes `b` and `k`. -/
def generate_run (b k : Nat) (fl : SysFlags) : List REv × Int :=
  generate_run_core (decide (0 < pad_sz b k)) fl

def isAcq (r : Res) (e : REv) : Bool :=
  match e with
  | REv.acq t => t == r
  | _ => false

def isRel (r : Res) (e : REv) : Bool :=
  match e with
  | REv.rel t => t == r
  | _ => false

def isReport (e : REv) : Bool :=
  match e with
  | REv.report _ => true
  | _ => false

theorem run_core_balanced :
    ∀ (p o1 o2 o3 m1 m2 w1 w2 w3 w4 : Bool) (r : Res),
      (generate_run_core p ⟨o1, o2, o3, m1, m2, w1, w2, w3, w4⟩).1.countP (isAcq r) =
        (generate_run_core p ⟨o1, o2, o3, m1, m2, w1, w2, w3, w4⟩).1.countP (isRel r) := by
  intro p o1 o2 o3 m1 m2 w1 w2 w3 w4 r
  cases r <;> revert p o1 o2 o3 m1 m2 w1 w2 w3 w4 <;> decide

/-- C9: on every exit path of `generate` — success, early error before any
write, or error during copying — every file descriptor and mapping that was
acquired during the call has been released when it returns: for each
resource, the number of acquisitions in the run's trace equals the number
of releases. -/
theorem C9_resources_released :
    ∀ (b k : Nat) (fl : SysFlags) (r : Res),
      (generate_run b k fl).1.countP (isAcq r) =
        (generate_run b k fl).1.countP (isRel r) := by
  intro b k fl r
  obtain ⟨o1, o2, o3, m1, m2, w1, w2, w3, w4⟩ := fl
  exact run_core_balanced (decide (0 < pad_sz b k)) o1 o2 o3 m1 m2 w1 w2 w3 w4 r

/-- A run in which every system call succeeds except that all four sink
writes fail. -/
def flagsWritesFail : SysFlags :=
  { bsOpenOk := true, kOpenOk := true, outOpenOk := true, bsMmapOk := true,
    kMmapOk := true, hdrWriteOk := false, bsWriteOk := false,
    kWriteOk := false, padWriteOk := false }

/-- C7: the claim says a failed sink write makes `compose` fail and report
the stage.  The code violates this: `write`'s return value is ignored at
every stage, so a run (input sizes 1 and 0, pad nonempty) in which every
write fails still returns 0 (success), and no diagnostic of any kind is
emitted. -/
theorem C7_write_failure_ignored :
    (generate_run 1 0 flagsWritesFail).2 = 0 ∧
      REv.wr Stage.header false ∈ (generate_run 1 0 flagsWritesFail).1 ∧
      REv.wr Stage.bootstrapCopy false ∈ (generate_run 1 0 flagsWritesFail).1 ∧
      REv.wr Stage.kernelCopy false ∈ (generate_run 1 0 flagsWritesFail).1 ∧
      REv.wr Stage.padding false ∈ (generate_run 1 0 flagsWritesFail).1 ∧
      (generate_run 1 0 flagsWritesFail).1.countP isReport = 0 := by
  refine ⟨?_, ?_, ?_, ?_, ?_, ?_⟩ <;> decide

/-- A run in which the kernel source cannot be opened (everything else
would succeed). -/
def flagsKOpenFail : SysFlags :=
  { bsOpenOk := true, kOpenOk := false, outOpenOk := true, bsMmapOk := true,
    kMmapOk := true, hdrWriteOk := true, bsWriteOk := true,
    kWriteOk := true, padWriteOk := true }

/-- A run in which the bootstrap source cannot be opened. -/
def flagsBsOpenFail : SysFlags :=
  { bsOpenOk := false, kOpenOk := true, outOpenOk := true, bsMmapOk := true,
    kMmapOk := true, hdrWriteOk := true, bsWriteOk := true,
    kWriteOk := true, padWriteOk := true }

/-- C8: when the kernel source cannot be opened the code does stop
immediately with -1, releases the already-open bootstrap descriptor and
never creates or truncates the output sink — but it emits no diagnostic at
all, so the failing source is not identified (the bootstrap-open failure
path, by contrast, reports `open[bs]`).  The identification part of the
claim fails on the code. -/
theorem C8_kernel_open_unidentified :
    (generate_run 0 0 flagsKOpenFail).2 = -1 ∧
      (generate_run 0 0 flagsKOpenFail).1 =
        [REv.acq Res.bsFd, REv.acqFail Res.kFd, REv.rel Res.bsFd] ∧
      (generate_run 0 0 flagsKOpenFail).1.countP isReport = 0 ∧
      (generate_run 0 0 flagsBsOpenFail).1 =
        [REv.acqFail Res.bsFd, REv.report Diag.openBsDiag] := by
  refine ⟨?_, ?_, ?_, ?_⟩ <;> decide

end Unistrap
